import Mathlib

/-!
Verification of the JurisFlow deterministic calculation engine.

Shallow embedding of the Python sources in Lean 4:
* `src/core/calculo_trabalhista.py`  — severance calculation (`calcular_rescisao`);
* `src/core/financeiro_bcb.py`       — social-security arrears (`calcular_atrasados`);
* `src/core/lookup_data.py`          — historical minimum-wage table;
* `src/agents/agent_prev.py`         — dynamic-minimum-wage detector.

Money is modelled by `ℚ` (the Python sources use IEEE doubles on decimal
inputs; all quantities of interest here are decimal fractions, which `ℚ`
represents exactly).  Python `round(x, n)` is round-half-to-even; ties never
occur at the concrete inputs used below, so the tie-breaking convention is
irrelevant to every statement in this file.
-/

namespace JurisFlow

/-- Round-half-to-even to an integer, the convention of Python `round`. -/
def roundHalfEven (x : ℚ) : ℤ :=
  let n := ⌊x⌋
  if x - n < 1/2 then n
  else if (1 : ℚ)/2 < x - n then n + 1
  else if n % 2 = 0 then n else n + 1

/-- Python `round(x, 2)`. -/
def round2 (x : ℚ) : ℚ := (roundHalfEven (x * 100) : ℚ) / 100

/-- Python `round(x, 6)`. -/
def round6 (x : ℚ) : ℚ := (roundHalfEven (x * 1000000) : ℚ) / 1000000

/-! Calendar dates (`datetime.date`), proleptic Gregorian. -/

/-- A calendar date, named `Data` after the Portuguese field names of the source. -/
structure Data where
  ano : Nat
  mes : Nat
  dia : Nat
deriving DecidableEq, Repr

/-- Lexicographic strict comparison of dates (`date.__lt__`). -/
def dataLt (a b : Data) : Bool :=
  Nat.blt a.ano b.ano ||
    (Nat.beq a.ano b.ano &&
      (Nat.blt a.mes b.mes || (Nat.beq a.mes b.mes && Nat.blt a.dia b.dia)))

/-- Gregorian leap year (`calendar.isleap`). -/
def bissexto (a : Nat) : Bool :=
  a % 4 == 0 && (a % 100 != 0 || a % 400 == 0)

/-- Number of days of month `m` in year `a`. -/
def diasNoMes (a m : Nat) : Nat :=
  if m = 2 then (if bissexto a then 29 else 28)
  else if m = 4 ∨ m = 6 ∨ m = 9 ∨ m = 11 then 30
  else 31

/-- Days in all years strictly before year `a` (proleptic Gregorian, `a ≥ 1`). -/
def diasAntesAno (a : Nat) : Nat :=
  365 * (a - 1) + (a - 1) / 4 + (a - 1) / 400 - (a - 1) / 100

/-- Days in the months of year `a` strictly before month `m`. -/
def diasAntesMes (a m : Nat) : Nat :=
  ((List.range (m - 1)).map (fun k => diasNoMes a (k + 1))).sum

/-- Ordinal day number of a date (`date.toordinal`). -/
def numeroDia (d : Data) : Int :=
  ((diasAntesAno d.ano + diasAntesMes d.ano d.mes + d.dia : Nat) : Int)

/-- Month index of a (year, month) pair: `ano * 12 + (mes - 1)`. -/
def mIdx (ano mes : Nat) : Nat := ano * 12 + (mes - 1)

/-- Month index of a date. -/
def mesIdx (d : Data) : Nat := mIdx d.ano d.mes

/-- Date plus `n` calendar months with the day clamped to the target month's
length, the semantics of `date + relativedelta(months=n)`. -/
def somaMeses (d : Data) (n : Int) : Data :=
  let t : Int := ((d.ano * 12 + (d.mes - 1) : Nat) : Int) + n
  let a : Nat := (t.fdiv 12).toNat
  let m : Nat := (t.emod 12).toNat + 1
  { ano := a, mes := m, dia := min d.dia (diasNoMes a m) }

/-- Calendar-month component of `relativedelta(disp, adm)` expressed as the
total month count `delta.years * 12 + delta.months`: the raw year/month
difference, adjusted by one when the day-clamped month addition overshoots
(dateutil's normalisation loop, which moves by at most one month here). -/
def mesesRel (adm disp : Data) : Int :=
  let m0 : Int := 12 * ((disp.ano : Int) - (adm.ano : Int)) + ((disp.mes : Int) - (adm.mes : Int))
  if dataLt disp adm then
    (if dataLt (somaMeses adm m0) disp then m0 + 1 else m0)
  else
    (if dataLt disp (somaMeses adm m0) then m0 - 1 else m0)

/-- Leftover-day component of `relativedelta(disp, adm)` (`delta.days`). -/
def diasRel (adm disp : Data) : Int :=
  numeroDia disp - numeroDia (somaMeses adm (mesesRel adm disp))

/-- Total months worked, `calcular_rescisao` lines 101-107: whole months plus
`dias_extras / 30.0` when there are leftover days. -/
def mesesTrabalhados (adm disp : Data) : ℚ :=
  (mesesRel adm disp : ℚ) +
    (if 0 < diasRel adm disp then (diasRel adm disp : ℚ) / 30 else 0)

/-! Severance calculation, `src/core/calculo_trabalhista.py`. -/

/-- Salary allowances (`Adicionais` in `src/models/schemas.py`). -/
structure Adicionais where
  insalubridade : Option ℚ := none
  periculosidade : Option ℚ := none
  noturno : Option ℚ := none
deriving DecidableEq, Repr

/-- Extracted labor-case facts (`DadosTrabalhistasExtraidos`). -/
structure DadosTrabalhistas where
  data_admissao : Option Data := none
  data_dispensa : Option Data := none
  salario_base : Option ℚ := none
  adicionais : Option Adicionais := none
  verbas_requeridas : List String := []
  justificativa_demissao : Option String := none
  multa_467_requerida : Bool := false
  multa_477_requerida : Bool := false
deriving Repr

/-- Total remuneration (`calcular_remuneracao_total`): base salary plus every
present allowance.  Python's falsy test on `0.0` adds `0` exactly as `getD 0`. -/
def calcular_remuneracao_total (dados : DadosTrabalhistas) : ℚ :=
  (dados.salario_base.getD 0) +
    (match dados.adicionais with
     | none => 0
     | some ad => ad.insalubridade.getD 0 + ad.periculosidade.getD 0 + ad.noturno.getD 0)

/-- FGTS estimate (`calcular_rescisao` line 116): computed only when requested. -/
def fgtsEstimado (s meses : ℚ) (fgtsReq : Bool) : ℚ :=
  if fgtsReq then s * (8/100) * meses else 0

/-- Base of the 40% penalty (`calcular_rescisao` line 129): the FGTS estimate
when positive, otherwise recomputed from salary, rate and months. -/
def fgtsBase40 (s meses : ℚ) (fgtsReq : Bool) : ℚ :=
  if 0 < fgtsEstimado s meses fgtsReq then fgtsEstimado s meses fgtsReq
  else s * (8/100) * meses

/-- Value of the 40% FGTS penalty (`calcular_rescisao` line 130). -/
def valorMulta40 (s meses : ℚ) (fgtsReq : Bool) : ℚ :=
  fgtsBase40 s meses fgtsReq * (40/100)

/-- Python `x % 12` on rationals (sign of the divisor). -/
def pymod12 (x : ℚ) : ℚ := x - 12 * ⌊x / 12⌋

/-- Months inside the current civil year (`min(meses_trabalhados % 12, 12)`). -/
def mesesAnoAtual (meses : ℚ) : ℚ := min (pymod12 meses) 12

/-- Proportional-vacation value with the source's literal `1.333` bonus factor
(`calcular_rescisao` lines 152-153). -/
def valorFerias (s meses : ℚ) : ℚ :=
  (s / 12) * mesesAnoAtual meses * (1333/1000)

/-- Proportional thirteenth-salary value (`calcular_rescisao` line 164). -/
def valorDecimo (s meses : ℚ) : ℚ :=
  (s / 12) * mesesAnoAtual meses

/-- Per-item computation trace (`memoria_calculo`): each field holds the
rounded emitted value of the item, present exactly when the item was computed. -/
structure MemoriaTrab where
  fgts : Option ℚ := none
  multa_40_fgts : Option ℚ := none
  aviso_previo : Option ℚ := none
  ferias_proporcionais : Option ℚ := none
  decimo_terceiro : Option ℚ := none
  multa_477_clt : Option ℚ := none
  multa_467_clt : Option ℚ := none
deriving DecidableEq, Repr

/-- Success payload of `calcular_rescisao` (the fields of the final dict that
carry numbers). -/
structure RescisaoSucesso where
  meses_totais : ℚ
  salario_base : ℚ
  remuneracao_base_calculo : ℚ
  memoria : MemoriaTrab
  total_estimado : ℚ
  multa_477_valor : ℚ
  multa_467_valor : ℚ
  total_geral : ℚ
deriving DecidableEq, Repr

/-- Result of `calcular_rescisao`: the error dict carries exactly a message and
two zero totals. -/
inductive ResultadoRescisao where
  | erro (msg : String) (total_estimado total_geral : ℚ)
  | sucesso (r : RescisaoSucesso)
deriving DecidableEq, Repr

/-- Full-precision running subtotal of the requested items
(`total_estimado` before rounding, `calcular_rescisao` lines 112-170). -/
def totalEstimadoCalc (dados : DadosTrabalhistas) (s meses : ℚ) : ℚ :=
  (if dados.verbas_requeridas.contains "fgts" then fgtsEstimado s meses true else 0) +
  (if dados.verbas_requeridas.contains "multa_40" then
      valorMulta40 s meses (dados.verbas_requeridas.contains "fgts") else 0) +
  (if dados.verbas_requeridas.contains "aviso_previo" then s else 0) +
  (if dados.verbas_requeridas.contains "ferias_proporcionais" then valorFerias s meses else 0) +
  (if dados.verbas_requeridas.contains "decimo_terceiro" then valorDecimo s meses else 0)

/-- Base of the Art. 467 penalty (`calcular_rescisao` lines 187-197): the sum
of the *rounded* trace values of the notice-period, vacation and thirteenth
items that are present in the trace. -/
def baseMulta467 (dados : DadosTrabalhistas) (s meses : ℚ) : ℚ :=
  (if dados.verbas_requeridas.contains "aviso_previo" then round2 s else 0) +
  (if dados.verbas_requeridas.contains "ferias_proporcionais" then round2 (valorFerias s meses) else 0) +
  (if dados.verbas_requeridas.contains "decimo_terceiro" then round2 (valorDecimo s meses) else 0)

/-- Full-precision Art. 477 penalty (`calcular_rescisao` lines 173-175). -/
def valorMulta477 (dados : DadosTrabalhistas) : ℚ :=
  if dados.multa_477_requerida then calcular_remuneracao_total dados else 0

/-- Full-precision Art. 467 penalty (`calcular_rescisao` lines 184-200). -/
def valorMulta467 (dados : DadosTrabalhistas) (s meses : ℚ) : ℚ :=
  if dados.multa_467_requerida then baseMulta467 dados s meses * (50/100) else 0

/-- Success branch of `calcular_rescisao` (lines 97-250), after validation. -/
def rescisaoCore (dados : DadosTrabalhistas) (adm disp : Data) (s : ℚ) : RescisaoSucesso :=
  let rem := calcular_remuneracao_total dados
  let meses := mesesTrabalhados adm disp
  let vr := dados.verbas_requeridas
  { meses_totais := round2 meses
  , salario_base := s
  , remuneracao_base_calculo := round2 rem
  , memoria :=
    { fgts := if vr.contains "fgts" then some (round2 (fgtsEstimado s meses true)) else none
    , multa_40_fgts := if vr.contains "multa_40" then
        some (round2 (valorMulta40 s meses (vr.contains "fgts"))) else none
    , aviso_previo := if vr.contains "aviso_previo" then some (round2 s) else none
    , ferias_proporcionais := if vr.contains "ferias_proporcionais" then
        some (round2 (valorFerias s meses)) else none
    , decimo_terceiro := if vr.contains "decimo_terceiro" then
        some (round2 (valorDecimo s meses)) else none
    , multa_477_clt := if dados.multa_477_requerida then
        some (round2 (valorMulta477 dados)) else none
    , multa_467_clt := if dados.multa_467_requerida then
        some (round2 (valorMulta467 dados s meses)) else none }
  , total_estimado := round2 (totalEstimadoCalc dados s meses)
  , multa_477_valor := round2 (valorMulta477 dados)
  , multa_467_valor := round2 (valorMulta467 dados s meses)
  , total_geral := round2 (totalEstimadoCalc dados s meses +
      valorMulta477 dados + valorMulta467 dados s meses) }

/-- Severance calculation `calcular_rescisao` (lines 81-95 for validation). -/
def calcular_rescisao (dados : DadosTrabalhistas) : ResultadoRescisao :=
  match dados.data_admissao, dados.data_dispensa with
  | none, _ =>
      .erro "Datas de admissão e dispensa são obrigatórias para realizar o cálculo." 0 0
  | some _, none =>
      .erro "Datas de admissão e dispensa são obrigatórias para realizar o cálculo." 0 0
  | some adm, some disp =>
      match dados.salario_base with
      | none => .erro "Salário base inválido ou não informado." 0 0
      | some s =>
          if s ≤ 0 then .erro "Salário base inválido ou não informado." 0 0
          else .sucesso (rescisaoCore dados adm disp s)

/-- The two input-error conditions of `calcular_rescisao`. -/
def entradaInvalida (dados : DadosTrabalhistas) : Prop :=
  dados.data_admissao = none ∨ dados.data_dispensa = none ∨
    dados.salario_base = none ∨ (∃ s, dados.salario_base = some s ∧ s ≤ 0)

instance (dados : DadosTrabalhistas) : Decidable (entradaInvalida dados) := by
  unfold entradaInvalida
  rcases dados.salario_base with _ | s
  · exact .isTrue (Or.inr (Or.inr (Or.inl rfl)))
  · rcases dados.data_admissao with _ | a
    · exact .isTrue (Or.inl rfl)
    · rcases dados.data_dispensa with _ | b
      · exact .isTrue (Or.inr (Or.inl rfl))
      · refine if h : s ≤ 0 then .isTrue (Or.inr (Or.inr (Or.inr ⟨s, rfl, h⟩))) else .isFalse ?_
        rintro (h1 | h2 | h3 | ⟨t, ht, ht0⟩) <;> simp_all
        exact absurd ht0 (not_le.mpr h)

/-! Arrears calculation, `src/core/financeiro_bcb.py`.

The monthly rate table (`taxas_mensais`, produced by `get_taxas_selic_mensais`
or its fallback) is passed in as a partial map from month index to percentage
rate, modelling the dictionary lookup `taxas_mensais.get(competencia, 0.0)`. -/

/-- Rate of a month with the dictionary default: absent months count as `0`. -/
def taxaD (taxas : Nat → Option ℚ) (v : Nat) : ℚ := (taxas v).getD 0

/-- Month indices from `v` through `fim`, inclusive (empty when `fim < v`). -/
def mesesDe (v fim : Nat) : List Nat := (List.range (fim + 1 - v)).map (v + ·)

/-- Correction-factor loop of `calcular_atrasados` (lines 416-427): starting
from the due month `v`, multiply `(1 + taxa/100)` month by month while the
month does not exceed the end month. -/
def fatorCorrecao (taxas : Nat → Option ℚ) (v fim : Nat) : ℚ :=
  if h : v ≤ fim then (1 + taxaD taxas v / 100) * fatorCorrecao taxas (v + 1) fim
  else 1
termination_by fim + 1 - v
decreasing_by omega

/-- Cumulative correction factor as the spec states it: the product of
`(1 + monthlyRate/100)` over every calendar month from the due month through
the end month inclusive, a month absent from the table contributing `1`. -/
def fatorProduto (taxas : Nat → Option ℚ) (v fim : Nat) : ℚ :=
  ((mesesDe v fim).map (fun u => 1 + taxaD taxas u / 100)).prod

/-- Kind of an installment (`tipo` strings "RMI Mensal" / "13º Salário ..."). -/
inductive TipoParcela where
  | rmiMensal
  | decimoTerceiro (ano : Nat) (qtdMeses : Nat)
deriving DecidableEq, Repr

/-- An installment (`competencias` list entries of `calcular_atrasados`):
kind, original uncorrected amount, due month index (due day is always the 1st). -/
structure Parcela where
  tipo : TipoParcela
  valor_original : ℚ
  venc : Nat
deriving DecidableEq, Repr

/-- One entry of `memoria_mensal` (lines 433-440), with the source's rounding:
amounts at 2 decimals, the factor at 6. -/
structure EntradaMemoria where
  tipo : TipoParcela
  competencia : Nat
  valor_original : ℚ
  fator_correcao : ℚ
  valor_corrigido : ℚ
deriving DecidableEq, Repr

/-- Ordinary monthly installments (lines 346-377): one per calendar month from
the start month through the end month inclusive, each worth the effective base. -/
def parcelasOrdinarias (rmiEf : ℚ) (mI mF : Nat) : List Parcela :=
  (mesesDe mI mF).map (fun v => { tipo := .rmiMensal, valor_original := rmiEf, venc := v })

/-- Months counted for a civil year (`meses_por_ano`, lines 351-361). -/
def qtdMesesAno (mI mF a : Nat) : Nat :=
  ((mesesDe mI mF).filter (fun v => v / 12 == a)).length

/-- Civil years touched by the range, in increasing order. -/
def anosDe (ini fim : Data) : List Nat :=
  (List.range (fim.ano + 1 - ini.ano)).map (ini.ano + ·)

/-- Thirteenth-salary installments (lines 379-402): for each civil year, the
final covered month of that year is December for years before the end year and
the end month for the end year; only when that month is November or December is
one installment emitted, worth `(rmiEf / 12) ×` the months counted that year,
due in `min(12, final month)`. -/
def parcelas13 (rmiEf : ℚ) (ini fim : Data) : List Parcela :=
  (anosDe ini fim).filterMap (fun a =>
    let mesFinalAno := if a < fim.ano then 12 else fim.mes
    if 11 ≤ mesFinalAno then
      some { tipo := .decimoTerceiro a (qtdMesesAno (mesIdx ini) (mesIdx fim) a)
           , valor_original := rmiEf / 12 * (qtdMesesAno (mesIdx ini) (mesIdx fim) a : ℚ)
           , venc := mIdx a (min 12 mesFinalAno) }
    else none)

/-- Whether an installment is a thirteenth-salary one (the source tests the
substring "13º" in the `tipo` string). -/
def ehDecimo : TipoParcela → Bool
  | .rmiMensal => false
  | .decimoTerceiro _ _ => true

/-- Two-decimal fixed-point rendering of a rational, Python `f-string .2f`. -/
def fmt2 (q : ℚ) : String :=
  let c : Int := roundHalfEven (q * 100)
  let n := c.natAbs
  let centavos := n % 100
  (if c < 0 then "-" else "") ++ toString (n / 100) ++ "." ++
    (if centavos < 10 then "0" ++ toString centavos else toString centavos)

/-- Observation emitted when the 25% uplift applies (lines 449-453). -/
def obsAdicional25 (rmi rmiEf : ℚ) : String :=
  "Acréscimo de 25% aplicado (grande invalidez). RMI original: R$ " ++ fmt2 rmi ++
    " → RMI efetivo: R$ " ++ fmt2 rmiEf

/-- Index-in-use observation (lines 455-457). -/
def obsIndice (nome : String) : String :=
  "Índice de correção: " ++ nome ++ " (conforme determinação judicial)."

/-- Thirteenth-salary count observation (lines 460-465). -/
def obsDecimo (n : Nat) : String :=
  "13º salário calculado em " ++ toString n ++
    " ano(s) (proporcional aos meses trabalhados em cada ano civil)."

/-- Reversed-compounding convention observation (lines 467-471). -/
def obsJuros : String :=
  "Juros compostos aplicados invertidamente: Parcela antiga acumula TODAS as taxas desde seu vencimento até a data final. Parcela recente acumula menos taxas (conforme praxe jurídica)."

/-- SELIC series-code observation (lines 473-476). -/
def obsCodigo : String :=
  "Código SELIC usado: 4390 (Taxa Selic acumulada no mês % - Série oficial do BCB)."

/-- The observations list (lines 447-476), as a function of its inputs. -/
def obsLista (rmi rmiEf : ℚ) (tem25 : Bool) (indiceUpper : String) (qtd13 : Nat) : List String :=
  (if tem25 then [obsAdicional25 rmi rmiEf] else []) ++
  [obsIndice indiceUpper] ++
  (if 0 < qtd13 then [obsDecimo qtd13] else []) ++
  [obsJuros, obsCodigo]

/-- Success payload of `calcular_atrasados` (lines 479-494). -/
structure AtrasadosSucesso where
  rmi_base : ℚ
  rmi_com_adicional : ℚ
  tem_adicional_25 : Bool
  total_meses : Nat
  total_devido_sem_correcao : ℚ
  indice_aplicado : String
  total_corrigido : ℚ
  diferenca_correcao : ℚ
  memoria_mensal : List EntradaMemoria
  observacoes : List String
deriving DecidableEq, Repr

/-- Result of `calcular_atrasados`: error dicts carry a message and a zero
`total_corrigido`. -/
inductive ResultadoAtrasados where
  | erro (msg : String) (total_corrigido : ℚ)
  | sucesso (r : AtrasadosSucesso)
deriving DecidableEq, Repr

/-- Success branch of `calcular_atrasados` (lines 323-494), after validation;
`indiceUpper` is the already upper-cased index name.  All three recognised
index names use the same monthly table (the SELIC table, lines 328-337). -/
def atrasadosCore (taxas : Nat → Option ℚ) (rmi : ℚ) (ini fim : Data)
    (indiceUpper : String) (tem25 : Bool) : AtrasadosSucesso :=
  let rmiEf := if tem25 then rmi * (125/100) else rmi
  let mF := mesIdx fim
  let parcelas := parcelasOrdinarias rmiEf (mesIdx ini) mF ++ parcelas13 rmiEf ini fim
  let memoria := parcelas.map (fun p =>
    { tipo := p.tipo
    , competencia := p.venc
    , valor_original := round2 p.valor_original
    , fator_correcao := round6 (fatorCorrecao taxas p.venc mF)
    , valor_corrigido := round2 (p.valor_original * fatorCorrecao taxas p.venc mF) })
  let totalSem := (parcelas.map (·.valor_original)).sum
  let totalCor := (parcelas.map (fun p => p.valor_original * fatorCorrecao taxas p.venc mF)).sum
  let qtd13 := (memoria.filter (fun e => ehDecimo e.tipo)).length
  { rmi_base := round2 rmi
  , rmi_com_adicional := round2 rmiEf
  , tem_adicional_25 := tem25
  , total_meses := (memoria.filter (fun e => !ehDecimo e.tipo)).length
  , total_devido_sem_correcao := round2 totalSem
  , indice_aplicado := indiceUpper
  , total_corrigido := round2 totalCor
  , diferenca_correcao := round2 (totalCor - totalSem)
  , memoria_mensal := memoria
  , observacoes := obsLista rmi rmiEf tem25 indiceUpper qtd13 }

/-- Upper-casing of a character as Python `str.upper` acts on the Latin-1
letters (ASCII a-z and à-þ except ÷), the alphabet of the index names. -/
def maiuscula (c : Char) : Char :=
  if 0x61 ≤ c.toNat ∧ c.toNat ≤ 0x7A then Char.ofNat (c.toNat - 32)
  else if 0xE0 ≤ c.toNat ∧ c.toNat ≤ 0xFE ∧ c.toNat ≠ 0xF7 then Char.ofNat (c.toNat - 32)
  else c

/-- String upper-casing (Python `str.upper`, `indice.upper()` in the source). -/
def maiusculas (s : String) : String := String.mk (s.toList.map maiuscula)

/-- The recognised index names (lines 328-343). -/
def indicesReconhecidos : List String := ["SELIC", "INPC", "IPCA-E"]

/-- Arrears calculation `calcular_atrasados` (lines 262-494).  The INPC and
IPCA-E branches fall back to the SELIC monthly table (with only a Python
warning, not an observation), so all recognised indices share `atrasadosCore`. -/
def calcular_atrasados (taxas : Nat → Option ℚ) (rmi : ℚ) (ini fim : Data)
    (indice : String) (tem25 : Bool) : ResultadoAtrasados :=
  if rmi ≤ 0 then .erro "RMI deve ser maior que zero." 0
  else if dataLt ini fim then
    (if indicesReconhecidos.contains (maiusculas indice) then
       .sucesso (atrasadosCore taxas rmi ini fim (maiusculas indice) tem25)
     else .erro "Índice não suportado. Use SELIC, INPC ou IPCA-E." 0)
  else .erro "Data de início deve ser anterior à data final." 0

/-! Historical minimum-wage table, `src/core/lookup_data.py`. -/

/-- Breakpoint lists of `HISTORICO_SALARIO_MINIMO` (month of effect, amount). -/
def smValores (ano : Nat) : Option (List (Nat × ℚ)) :=
  if ano = 2022 then some [(1, 1212)]
  else if ano = 2023 then some [(1, 1302), (5, 1320)]
  else if ano = 2024 then some [(1, 1412)]
  else if ano = 2025 then some [(1, 1518)]
  else none

/-- Breakpoint scan of `obter_salario_minimo` (lines 81-87): walk the list in
order, keeping the last amount whose effective month is at most `mes`. -/
def vigenteNoMes (mes : Nat) : List (Nat × ℚ) → ℚ → ℚ
  | [], acc => acc
  | (mi, v) :: t, acc => if mi ≤ mes then vigenteNoMes mes t v else acc

/-- Minimum wage effective on a date (`obter_salario_minimo`, lines 39-89):
`none` models the `ValueError` raised for a year before the table; years after
the last known year forward-fill with the last known amount (1518, the final
2025 breakpoint). -/
def obter_salario_minimo (d : Data) : Option ℚ :=
  match smValores d.ano with
  | some l => some (vigenteNoMes d.mes l ((l.head?.map Prod.snd).getD 0))
  | none => if 2025 < d.ano then some 1518 else none

/-- Minimum wage effective in a month given by index (day 1 of the month). -/
def smIdx (v : Nat) : Option ℚ := obter_salario_minimo ⟨v / 12, v % 12 + 1, 1⟩

/-! Dynamic-base arrears calculation.

`src/agents/agent_prev.py` line 530 calls
`calcular_atrasados(..., usar_salario_minimo_dinamico=usar_sm_dinamico)`, but
the `calcular_atrasados` in `src/core/financeiro_bcb.py` accepts no such
parameter: the dynamic-base variant of the arrears engine is not under `src/`,
only its caller is. -/

/-- Modelled from the spec: the `usar_salario_minimo_dinamico` variant of the
arrears engine that `src/agents/agent_prev.py` line 530 invokes is missing
from `src/core/financeiro_bcb.py`; its dynamic parts are taken from spec
§4.5 (steps 1, 3 and 4): when the dynamic flag is set, the per-month base of
an ordinary installment is the minimum wage effective in that installment's
month (via the `lookup_data` table), times `1.25` when the uplift flag is set,
and the benefit amount is not used for the base; the thirteenth-salary base of
a year is the last per-month base used for that year.  Everything else follows
`atrasadosCore`.  The spec leaves a minimum-wage lookup failure unspecified for
this calculator; the lookup only fails for years before 2022, which the caller
excludes here via the upfront year check. -/
def atrasadosCoreDin (taxas : Nat → Option ℚ) (rmi : ℚ) (ini fim : Data)
    (indiceUpper : String) (tem25 : Bool) (usarSm : Bool) : AtrasadosSucesso :=
  let mult : ℚ := if tem25 then 125/100 else 1
  let mF := mesIdx fim
  let valorMes : Nat → ℚ := fun v => if usarSm then ((smIdx v).getD 0) * mult else rmi * mult
  let parcelas :=
    ((mesesDe (mesIdx ini) mF).map (fun v =>
       ({ tipo := .rmiMensal, valor_original := valorMes v, venc := v } : Parcela))) ++
    ((anosDe ini fim).filterMap (fun a =>
       let mesFinalAno := if a < fim.ano then 12 else fim.mes
       if 11 ≤ mesFinalAno then
         some ({ tipo := .decimoTerceiro a (qtdMesesAno (mesIdx ini) mF a)
               , valor_original := valorMes (min (mIdx a 12) mF) / 12 *
                   (qtdMesesAno (mesIdx ini) mF a : ℚ)
               , venc := mIdx a (min 12 mesFinalAno) } : Parcela)
       else none))
  let memoria := parcelas.map (fun p =>
    { tipo := p.tipo
    , competencia := p.venc
    , valor_original := round2 p.valor_original
    , fator_correcao := round6 (fatorCorrecao taxas p.venc mF)
    , valor_corrigido := round2 (p.valor_original * fatorCorrecao taxas p.venc mF) })
  let totalSem := (parcelas.map (·.valor_original)).sum
  let totalCor := (parcelas.map (fun p => p.valor_original * fatorCorrecao taxas p.venc mF)).sum
  let qtd13 := (memoria.filter (fun e => ehDecimo e.tipo)).length
  { rmi_base := round2 rmi
  , rmi_com_adicional := round2 (rmi * mult)
  , tem_adicional_25 := tem25
  , total_meses := (memoria.filter (fun e => !ehDecimo e.tipo)).length
  , total_devido_sem_correcao := round2 totalSem
  , indice_aplicado := indiceUpper
  , total_corrigido := round2 totalCor
  , diferenca_correcao := round2 (totalCor - totalSem)
  , memoria_mensal := memoria
  , observacoes := obsLista rmi (rmi * mult) tem25 indiceUpper qtd13 }

/-- Modelled from the spec: entry point of the dynamic-base arrears variant
(the call shape of `src/agents/agent_prev.py` lines 530-537).  Per spec §4.5,
the benefit amount is validated only when the dynamic flag is off; range and
index validation follow `calcular_atrasados`.  A range starting before 2022
has no minimum-wage data, which surfaces as an error result in dynamic mode. -/
def calcular_atrasados_dinamico (taxas : Nat → Option ℚ) (rmi : ℚ) (ini fim : Data)
    (indice : String) (tem25 : Bool) (usarSm : Bool) : ResultadoAtrasados :=
  if ¬ usarSm ∧ rmi ≤ 0 then .erro "RMI deve ser maior que zero." 0
  else if dataLt ini fim then
    (if indicesReconhecidos.contains (maiusculas indice) then
       (if usarSm ∧ ini.ano < 2022 then
          .erro "Não há dados de salário mínimo para o período." 0
        else .sucesso (atrasadosCoreDin taxas rmi ini fim (maiusculas indice) tem25 usarSm))
     else .erro "Índice não suportado. Use SELIC, INPC ou IPCA-E." 0)
  else .erro "Data de início deve ser anterior à data final." 0

/-! Dynamic-minimum-wage detector, `src/agents/agent_prev.py` lines 144-212. -/

/-- Extracted social-security case facts (`DadosPrevidenciarios` in
`src/models/schemas_prev.py`). -/
structure DadosPrev where
  nome_segurado : Option String := none
  tipo_beneficio : Option String := none
  dib : Option Data := none
  dip : Option Data := none
  rmi : Option ℚ := none
  tem_adicional_25 : Bool := false
  indice_correcao : String := "SELIC"
  observacoes : List String := []
deriving Repr

/-- Lower-casing of a character as Python `str.lower` acts on the Latin-1
letters Portuguese uses (ASCII A-Z and À-Þ except ×). -/
def minusculo (c : Char) : Char :=
  if 0x41 ≤ c.toNat ∧ c.toNat ≤ 0x5A then Char.ofNat (c.toNat + 32)
  else if 0xC0 ≤ c.toNat ∧ c.toNat ≤ 0xDE ∧ c.toNat ≠ 0xD7 then Char.ofNat (c.toNat + 32)
  else c

/-- String lower-casing (Python `str.lower` on the alphabet above). -/
def minusculos (s : String) : String := String.mk (s.toList.map minusculo)

/-- The keyword list `palavras_chave_sm` (lines 193-202). -/
def palavrasChaveSm : List String :=
  ["salário mínimo", "salario minimo", "um salário mínimo", "1 salário mínimo",
   "benefício de piso", "piso previdenciário", "valor mínimo", "sm vigente"]

/-- Whether `ag` is an initial segment of `l`. -/
def comecaCom : List Char → List Char → Bool
  | [], _ => true
  | _ :: _, [] => false
  | a :: as, b :: bs => a == b && comecaCom as bs

/-- Whether `ag` occurs contiguously in `l` (Python `in` on strings). -/
def contemSub (ag : List Char) : List Char → Bool
  | [] => comecaCom ag []
  | c :: t => comecaCom ag (c :: t) || contemSub ag t

/-- Keyword step of the detector (lines 191-209): lower-case the remarks, join
with spaces and search for any keyword; an empty remarks list never matches. -/
def verificaPalavrasChave (obs : List String) : Bool :=
  if obs.isEmpty then false
  else
    let texto := String.intercalate " " (obs.map minusculos)
    palavrasChaveSm.any (fun p => contemSub p.toList texto.toList)

/-- Dynamic-minimum-wage detector `detectar_salario_minimo_dinamico`
(lines 144-212).  Step 1: missing or non-positive RMI (Python falsy `0.0`
included) is dynamic.  Step 2: with a benefit-start date, an RMI within 5.00
of the effective minimum wage — or, under the 25% flag, of 1.25 times it — is
dynamic; a lookup `ValueError` is swallowed and falls through.  Step 3:
keyword scan of the remarks.  Step 4: fixed amount. -/
def detectar_salario_minimo_dinamico (dados : DadosPrev) : Bool :=
  match dados.rmi with
  | none => true
  | some r =>
    if r ≤ 0 then true
    else
      match dados.dib with
      | none => verificaPalavrasChave dados.observacoes
      | some d =>
        match obter_salario_minimo d with
        | none => verificaPalavrasChave dados.observacoes
        | some sm =>
          if |r - sm| ≤ 5 then true
          else if dados.tem_adicional_25 ∧ |r - sm * (125/100)| ≤ 5 then true
          else verificaPalavrasChave dados.observacoes

/-! Concrete inputs used by witnesses and counterexamples. -/

/-- Labor facts: seven whole months of service, salary 1200, FGTS and the 40%
penalty requested. -/
def dadosC4 : DadosTrabalhistas :=
  { data_admissao := some ⟨2020, 1, 1⟩, data_dispensa := some ⟨2020, 8, 1⟩
  , salario_base := some 1200, verbas_requeridas := ["fgts", "multa_40"] }

/-- Labor facts with every field absent. -/
def dadosC5 : DadosTrabalhistas := {}

/-- Labor facts: seven whole months, salary 1200, proportional vacation only. -/
def dadosC7 : DadosTrabalhistas :=
  { data_admissao := some ⟨2020, 1, 1⟩, data_dispensa := some ⟨2020, 8, 1⟩
  , salario_base := some 1200, verbas_requeridas := ["ferias_proporcionais"] }

/-- Labor facts: salary `10.004`, notice period requested, Art. 477 penalty on. -/
def dadosC8 : DadosTrabalhistas :=
  { data_admissao := some ⟨2020, 1, 1⟩, data_dispensa := some ⟨2020, 8, 1⟩
  , salario_base := some (2501/250), verbas_requeridas := ["aviso_previo"]
  , multa_477_requerida := true }

/-- Labor facts: seven whole months, salary 1000, vacation and thirteenth
requested, Art. 467 penalty on. -/
def dadosC10 : DadosTrabalhistas :=
  { data_admissao := some ⟨2020, 1, 1⟩, data_dispensa := some ⟨2020, 8, 1⟩
  , salario_base := some 1000
  , verbas_requeridas := ["ferias_proporcionais", "decimo_terceiro"]
  , multa_467_requerida := true }

/-- An empty monthly rate table. -/
def taxasVazias : Nat → Option ℚ := fun _ => none

/-- A three-month rate table: 1% in 01/2023, 2% in 02/2023, 3% in 03/2023. -/
def taxasC6 : Nat → Option ℚ := fun v =>
  if v = mIdx 2023 1 then some 1
  else if v = mIdx 2023 2 then some 2
  else if v = mIdx 2023 3 then some 3
  else none

/-- Social-security facts: RMI 1300 with benefit start 02/2023 (wage 1302). -/
def dadosC9 : DadosPrev := { rmi := some 1300, dib := some ⟨2023, 2, 1⟩ }

/-! Helper lemmas. -/

theorem fgtsBase40_eq (s meses : ℚ) (r : Bool) :
    fgtsBase40 s meses r = s * (8/100) * meses := by
  unfold fgtsBase40 fgtsEstimado
  cases r
  · simp
  · simp only [if_true]
    split <;> rfl

theorem mesesDe_nil {v fim : Nat} (h : fim < v) : mesesDe v fim = [] := by
  unfold mesesDe
  rw [show fim + 1 - v = 0 from by omega]
  rfl

theorem mesesDe_step {v fim : Nat} (h : v ≤ fim) :
    mesesDe v fim = v :: mesesDe (v + 1) fim := by
  unfold mesesDe
  rw [show fim + 1 - v = (fim - v) + 1 from by omega,
      show fim + 1 - (v + 1) = fim - v from by omega,
      List.range_succ_eq_map, List.map_cons, List.map_map]
  simp only [Nat.add_zero]
  exact congrArg (v :: ·) (List.map_congr_left (fun k _ => by simp [Function.comp]; omega))

theorem mem_mesesDe {u v fim : Nat} : u ∈ mesesDe v fim ↔ v ≤ u ∧ u ≤ fim := by
  unfold mesesDe
  simp only [List.mem_map, List.mem_range]
  constructor
  · rintro ⟨k, hk, rfl⟩; omega
  · rintro ⟨h1, h2⟩; exact ⟨u - v, by omega, by omega⟩

theorem fatorCorrecao_eq (taxas : Nat → Option ℚ) (fim v : Nat) :
    fatorCorrecao taxas v fim = fatorProduto taxas v fim := by
  have H : ∀ n v, fim + 1 - v = n →
      fatorCorrecao taxas v fim = fatorProduto taxas v fim := by
    intro n
    induction n with
    | zero =>
      intro v hv
      have hv2 : ¬ v ≤ fim := by omega
      rw [fatorCorrecao, dif_neg hv2]
      unfold fatorProduto
      rw [mesesDe_nil (by omega)]
      rfl
    | succ n ih =>
      intro v hv
      have hv2 : v ≤ fim := by omega
      rw [fatorCorrecao, dif_pos hv2, ih (v + 1) (by omega)]
      unfold fatorProduto
      rw [mesesDe_step hv2, List.map_cons, List.prod_cons]
  exact H (fim + 1 - v) v rfl

theorem fatorProduto_self (taxas : Nat → Option ℚ) (v : Nat) :
    fatorProduto taxas v v = 1 + taxaD taxas v / 100 := by
  unfold fatorProduto
  rw [mesesDe_step (le_refl v), mesesDe_nil (by omega)]
  simp

theorem length_filterMap_all_isSome {α β : Type} (f : α → Option β) :
    ∀ l : List α, (∀ a ∈ l, (f a).isSome) → (l.filterMap f).length = l.length := by
  intro l
  induction l with
  | nil => simp
  | cons a t ih =>
    intro h
    rw [List.filterMap_cons]
    rcases hfa : f a with _ | b
    · exact absurd (hfa ▸ h a (List.mem_cons_self a t)) (by simp)
    · simp only [List.length_cons]
      rw [ih (fun x hx => h x (List.mem_cons_of_mem a hx))]

theorem dataLt_ano_le {a b : Data} (h : dataLt a b = true) : a.ano ≤ b.ano := by
  unfold dataLt at h
  simp only [Bool.or_eq_true, Bool.and_eq_true, Nat.blt_eq, Nat.beq_eq_true_eq] at h
  rcases h with h | ⟨he, _⟩
  · omega
  · have := Nat.eq_of_beq_eq_true he
    omega

theorem smIdx_isSome {v : Nat} (h : 2022 * 12 ≤ v) : (smIdx v).isSome := by
  unfold smIdx obter_salario_minimo
  have ha : 2022 ≤ v / 12 := by omega
  rcases Nat.lt_or_ge (v / 12) 2026 with h2 | h2
  · interval_cases h3 : (v / 12) <;> simp [smValores]
  · have hnone : smValores (v / 12) = none := by
      unfold smValores
      rw [if_neg (by omega), if_neg (by omega), if_neg (by omega), if_neg (by omega)]
    simp only [hnone]
    rw [if_pos (show 2025 < (⟨v / 12, v % 12 + 1, 1⟩ : Data).ano by show 2025 < v / 12; omega)]
    rfl

/-! Helper lemmas: arrears calculator. -/

/-- Shared helper: a valid arrears input reaches the success branch. -/
theorem atrasados_eq_sucesso (taxas : Nat → Option ℚ) (rmi : ℚ) (ini fim : Data)
    (indice : String) (tem25 : Bool) (hrmi : 0 < rmi) (hdt : dataLt ini fim = true)
    (hidx : indicesReconhecidos.contains (maiusculas indice) = true) :
    calcular_atrasados taxas rmi ini fim indice tem25 =
      .sucesso (atrasadosCore taxas rmi ini fim (maiusculas indice) tem25) := by
  unfold calcular_atrasados
  rw [if_neg (not_le.mpr hrmi), if_pos hdt, if_pos hidx]

/-- Ordinary installments are never thirteenth-salary ones. -/
theorem filter_decimo_ordinarias (r : ℚ) (mI mF : Nat) :
    (parcelasOrdinarias r mI mF).filter (fun p => ehDecimo p.tipo) = [] := by
  unfold parcelasOrdinarias
  rw [List.filter_map]
  have h : ((fun p : Parcela => ehDecimo p.tipo) ∘
      (fun v => ({ tipo := .rmiMensal, valor_original := r, venc := v } : Parcela))) =
      fun _ => false := rfl
  rw [h, List.filter_false, List.map_nil]

/-- Every emitted thirteenth-salary installment is tagged as one. -/
theorem filter_decimo_13 (r : ℚ) (ini fim : Data) :
    (parcelas13 r ini fim).filter (fun p => ehDecimo p.tipo) = parcelas13 r ini fim := by
  rw [List.filter_eq_self]
  intro p hp
  unfold parcelas13 at hp
  simp only [List.mem_filterMap] at hp
  obtain ⟨a, _, hfa⟩ := hp
  by_cases hc : 11 ≤ (if a < fim.ano then 12 else fim.mes)
  · rw [if_pos hc] at hfa
    cases hfa
    rfl
  · rw [if_neg hc] at hfa
    exact absurd hfa (by simp)

/-- The number of thirteenth-salary installments: one per civil year strictly
before the end year, plus one for the end year exactly when the end month is
November or December. -/
theorem length_parcelas13 (r : ℚ) (ini fim : Data) (hy : ini.ano ≤ fim.ano) :
    (parcelas13 r ini fim).length =
      (fim.ano - ini.ano) + (if 11 ≤ fim.mes then 1 else 0) := by
  unfold parcelas13 anosDe
  rw [show fim.ano + 1 - ini.ano = (fim.ano - ini.ano) + 1 from by omega,
      List.range_succ, List.map_append, List.filterMap_append, List.length_append]
  congr 1
  · rw [length_filterMap_all_isSome]
    · rw [List.length_map, List.length_range]
    · intro a ha
      simp only [List.mem_map, List.mem_range] at ha
      obtain ⟨i, hi, rfl⟩ := ha
      rw [if_pos (show ini.ano + i < fim.ano from by omega)]
      rw [if_pos (by norm_num : (11:Nat) ≤ 12)]
      rfl
  · simp only [List.map_cons, List.map_nil, List.filterMap_cons, List.filterMap_nil]
    rw [show ini.ano + (fim.ano - ini.ano) = fim.ano from by omega]
    rw [if_neg (lt_irrefl fim.ano)]
    by_cases hm : 11 ≤ fim.mes
    · rw [if_pos hm, if_pos hm]
      rfl
    · rw [if_neg hm, if_neg hm]
      rfl

/-- The thirteenth-salary count in the emitted trace of `atrasadosCore`. -/
theorem count_decimo_memoria (taxas : Nat → Option ℚ) (rmi : ℚ) (ini fim : Data)
    (indiceUpper : String) (tem25 : Bool) (hy : ini.ano ≤ fim.ano) :
    ((atrasadosCore taxas rmi ini fim indiceUpper tem25).memoria_mensal.filter
      (fun e => ehDecimo e.tipo)).length =
      (fim.ano - ini.ano) + (if 11 ≤ fim.mes then 1 else 0) := by
  simp only [atrasadosCore]
  rw [List.filter_map, List.length_map]
  show (List.filter (fun p : Parcela => ehDecimo p.tipo)
      (parcelasOrdinarias (if tem25 then rmi * (125/100) else rmi) (mesIdx ini) (mesIdx fim) ++
        parcelas13 (if tem25 then rmi * (125/100) else rmi) ini fim)).length =
    fim.ano - ini.ano + if 11 ≤ fim.mes then 1 else 0
  rw [List.filter_append, filter_decimo_ordinarias, filter_decimo_13, List.nil_append]
  exact length_parcelas13 _ ini fim hy

/-! Claim theorems: severance calculator. -/

/-- Shared helper: a valid input reaches the success branch. -/
theorem rescisao_eq_sucesso (dados : DadosTrabalhistas) (adm disp : Data) (s : ℚ)
    (hadm : dados.data_admissao = some adm) (hdisp : dados.data_dispensa = some disp)
    (hsal : dados.salario_base = some s) (hs : 0 < s) :
    calcular_rescisao dados = .sucesso (rescisaoCore dados adm disp s) := by
  unfold calcular_rescisao
  simp only [hadm, hdisp, hsal]
  rw [if_neg (not_le.mpr hs)]

/-- Shared helper: the concrete seven-whole-month employment span. -/
theorem mesesTrab_2020 : mesesTrabalhados ⟨2020,1,1⟩ ⟨2020,8,1⟩ = 7 := by
  unfold mesesTrabalhados
  rw [show mesesRel ⟨2020,1,1⟩ ⟨2020,8,1⟩ = 7 from by decide,
      show diasRel ⟨2020,1,1⟩ ⟨2020,8,1⟩ = 0 from by decide]
  norm_num

/-- C5: `calcular_rescisao` returns an error result exactly when a date is
absent or the base salary is absent or non-positive; every error result
carries zero totals, and every other input yields a success result. -/
theorem C5_erro_sse_entrada_invalida (dados : DadosTrabalhistas) :
    ((∃ msg te tg, calcular_rescisao dados = .erro msg te tg) ↔ entradaInvalida dados) ∧
    (∀ msg te tg, calcular_rescisao dados = .erro msg te tg → te = 0 ∧ tg = 0) ∧
    (¬ entradaInvalida dados → ∃ r, calcular_rescisao dados = .sucesso r) := by
  unfold calcular_rescisao entradaInvalida
  rcases hadm : dados.data_admissao with _ | adm <;>
    rcases hdisp : dados.data_dispensa with _ | disp <;>
      rcases hsal : dados.salario_base with _ | s <;>
        simp only [hadm, hdisp, hsal] <;> try simp
  split_ifs with hs
  · simp [hs]
  · simp [hs]

/-- C5 witness: the all-absent input is rejected with zero totals. -/
theorem C5_testemunha :
    ((∃ msg te tg, calcular_rescisao dadosC5 = .erro msg te tg) ↔ entradaInvalida dadosC5) ∧
    (∀ msg te tg, calcular_rescisao dadosC5 = .erro msg te tg → te = 0 ∧ tg = 0) ∧
    (¬ entradaInvalida dadosC5 → ∃ r, calcular_rescisao dadosC5 = .sucesso r) :=
  C5_erro_sse_entrada_invalida dadosC5

/-- C4: whenever the 40% penalty is requested on a valid input, its value is
exactly 40% of 8% of salary times total months, whether or not the
severance-fund item was itself requested. -/
theorem C4_multa40_formula (dados : DadosTrabalhistas) (adm disp : Data) (s : ℚ)
    (hadm : dados.data_admissao = some adm) (hdisp : dados.data_dispensa = some disp)
    (hsal : dados.salario_base = some s) (hs : 0 < s)
    (hreq : dados.verbas_requeridas.contains "multa_40" = true) :
    calcular_rescisao dados = .sucesso (rescisaoCore dados adm disp s) ∧
    (rescisaoCore dados adm disp s).memoria.multa_40_fgts =
      some (round2 ((40/100) * ((8/100) * s * mesesTrabalhados adm disp))) := by
  constructor
  · unfold calcular_rescisao
    simp only [hadm, hdisp, hsal]
    rw [if_neg (not_le.mpr hs)]
  · simp only [rescisaoCore, hreq, if_true, valorMulta40, fgtsBase40_eq]
    exact congrArg some (congrArg round2 (by ring))

/-- C4 witness: seven months at salary 1200 with FGTS also requested. -/
theorem C4_testemunha :
    calcular_rescisao dadosC4 = .sucesso (rescisaoCore dadosC4 ⟨2020,1,1⟩ ⟨2020,8,1⟩ 1200) ∧
    (rescisaoCore dadosC4 ⟨2020,1,1⟩ ⟨2020,8,1⟩ 1200).memoria.multa_40_fgts =
      some (round2 ((40/100) * ((8/100) * 1200 * mesesTrabalhados ⟨2020,1,1⟩ ⟨2020,8,1⟩))) :=
  C4_multa40_formula dadosC4 ⟨2020,1,1⟩ ⟨2020,8,1⟩ 1200 rfl rfl rfl (by norm_num) (by decide)

/-- C7 counterexample: at seven months and salary 1200 the proportional
vacation trace value is 933.10, produced by the literal factor 1.333, while
the exact 4/3 bonus would emit 933.33. -/
theorem C7_contraexemplo :
    calcular_rescisao dadosC7 = .sucesso (rescisaoCore dadosC7 ⟨2020,1,1⟩ ⟨2020,8,1⟩ 1200) ∧
    (rescisaoCore dadosC7 ⟨2020,1,1⟩ ⟨2020,8,1⟩ 1200).memoria.ferias_proporcionais =
      some (9331/10) ∧
    (9331/10 : ℚ) ≠
      round2 ((1200/12) * mesesAnoAtual (mesesTrabalhados ⟨2020,1,1⟩ ⟨2020,8,1⟩) * (4/3)) := by
  refine ⟨rescisao_eq_sucesso dadosC7 ⟨2020,1,1⟩ ⟨2020,8,1⟩ 1200 rfl rfl rfl (by norm_num),
    ?_, ?_⟩
  · have h1 : dadosC7.verbas_requeridas.contains "ferias_proporcionais" = true := rfl
    have h2 : dadosC7.verbas_requeridas.contains "fgts" = false := rfl
    have h3 : dadosC7.verbas_requeridas.contains "multa_40" = false := rfl
    have h4 : dadosC7.verbas_requeridas.contains "aviso_previo" = false := rfl
    have h5 : dadosC7.verbas_requeridas.contains "decimo_terceiro" = false := rfl
    simp only [rescisaoCore, h1, h2, h3, h4, h5, if_true, if_false, Bool.false_eq_true,
      mesesTrab_2020]
    norm_num [valorFerias, mesesAnoAtual, pymod12, round2, roundHalfEven]
  · rw [mesesTrab_2020]
    norm_num [mesesAnoAtual, pymod12, round2, roundHalfEven]

/-- C7 amended: the proportional-vacation line value equals
`(salary / 12) × (total months mod 12, capped at 12) × 1.333` — the source's
decimal approximation of the one-third bonus, not exactly 4/3. -/
theorem C7_ferias_fator_1333 (dados : DadosTrabalhistas) (adm disp : Data) (s : ℚ)
    (hadm : dados.data_admissao = some adm) (hdisp : dados.data_dispensa = some disp)
    (hsal : dados.salario_base = some s) (hs : 0 < s)
    (hreq : dados.verbas_requeridas.contains "ferias_proporcionais" = true) :
    calcular_rescisao dados = .sucesso (rescisaoCore dados adm disp s) ∧
    (rescisaoCore dados adm disp s).memoria.ferias_proporcionais =
      some (round2 ((s/12) * mesesAnoAtual (mesesTrabalhados adm disp) * (1333/1000))) := by
  constructor
  · unfold calcular_rescisao
    simp only [hadm, hdisp, hsal]
    rw [if_neg (not_le.mpr hs)]
  · simp only [rescisaoCore, hreq, if_true, valorFerias]

/-- C7 amended witness: the concrete seven-month input above. -/
theorem C7_testemunha :
    calcular_rescisao dadosC7 = .sucesso (rescisaoCore dadosC7 ⟨2020,1,1⟩ ⟨2020,8,1⟩ 1200) ∧
    (rescisaoCore dadosC7 ⟨2020,1,1⟩ ⟨2020,8,1⟩ 1200).memoria.ferias_proporcionais =
      some (round2 ((1200/12) * mesesAnoAtual (mesesTrabalhados ⟨2020,1,1⟩ ⟨2020,8,1⟩) * (1333/1000))) :=
  C7_ferias_fator_1333 dadosC7 ⟨2020,1,1⟩ ⟨2020,8,1⟩ 1200 rfl rfl rfl (by norm_num) (by decide)

/-- C8 counterexample: at salary 10.004 with the notice period requested and
the Art. 477 penalty on, the documented rounded components are 10.00, 10.00
and 0.00, yet the reported grand total is 20.01 — the separately-rounded sum
of the unrounded components, not the sum 20.00 of the rounded ones. -/
theorem C8_contraexemplo :
    calcular_rescisao dadosC8 = .sucesso (rescisaoCore dadosC8 ⟨2020,1,1⟩ ⟨2020,8,1⟩ (2501/250)) ∧
    (rescisaoCore dadosC8 ⟨2020,1,1⟩ ⟨2020,8,1⟩ (2501/250)).memoria.aviso_previo = some 10 ∧
    (rescisaoCore dadosC8 ⟨2020,1,1⟩ ⟨2020,8,1⟩ (2501/250)).multa_477_valor = 10 ∧
    (rescisaoCore dadosC8 ⟨2020,1,1⟩ ⟨2020,8,1⟩ (2501/250)).multa_467_valor = 0 ∧
    (rescisaoCore dadosC8 ⟨2020,1,1⟩ ⟨2020,8,1⟩ (2501/250)).total_geral = 2001/100 ∧
    (2001/100 : ℚ) ≠ 10 + 10 + 0 := by
  have h1 : dadosC8.verbas_requeridas.contains "aviso_previo" = true := rfl
  have h2 : dadosC8.verbas_requeridas.contains "fgts" = false := rfl
  have h3 : dadosC8.verbas_requeridas.contains "multa_40" = false := rfl
  have h4 : dadosC8.verbas_requeridas.contains "ferias_proporcionais" = false := rfl
  have h5 : dadosC8.verbas_requeridas.contains "decimo_terceiro" = false := rfl
  have h6 : dadosC8.multa_477_requerida = true := rfl
  have h7 : dadosC8.multa_467_requerida = false := rfl
  have h8 : calcular_remuneracao_total dadosC8 = 2501/250 := by
    norm_num [calcular_remuneracao_total, dadosC8]
  refine ⟨rescisao_eq_sucesso dadosC8 ⟨2020,1,1⟩ ⟨2020,8,1⟩ (2501/250) rfl rfl rfl
    (by norm_num), ?_, ?_, ?_, ?_, by norm_num⟩ <;>
    simp only [rescisaoCore, totalEstimadoCalc, valorMulta477, valorMulta467, baseMulta467,
      h1, h2, h3, h4, h5, h6, h7, h8, if_true, if_false, Bool.false_eq_true] <;>
    norm_num [round2, roundHalfEven]

/-- C8 amended: the reported grand total is the 2-decimal rounding of the
full-precision sum subtotal + Art. 477 penalty + Art. 467 penalty, which can
differ by up to one cent per component from the sum of the rounded components
the trace documents. -/
theorem C8_total_geral_arredonda_soma_cheia (dados : DadosTrabalhistas) (adm disp : Data)
    (s : ℚ) (hadm : dados.data_admissao = some adm) (hdisp : dados.data_dispensa = some disp)
    (hsal : dados.salario_base = some s) (hs : 0 < s) :
    calcular_rescisao dados = .sucesso (rescisaoCore dados adm disp s) ∧
    (rescisaoCore dados adm disp s).total_geral =
      round2 (totalEstimadoCalc dados s (mesesTrabalhados adm disp) +
        valorMulta477 dados + valorMulta467 dados s (mesesTrabalhados adm disp)) := by
  constructor
  · unfold calcular_rescisao
    simp only [hadm, hdisp, hsal]
    rw [if_neg (not_le.mpr hs)]
  · rfl

/-- C8 amended witness: the salary-10.004 input above. -/
theorem C8_testemunha :
    calcular_rescisao dadosC8 = .sucesso (rescisaoCore dadosC8 ⟨2020,1,1⟩ ⟨2020,8,1⟩ (2501/250)) ∧
    (rescisaoCore dadosC8 ⟨2020,1,1⟩ ⟨2020,8,1⟩ (2501/250)).total_geral =
      round2 (totalEstimadoCalc dadosC8 (2501/250) (mesesTrabalhados ⟨2020,1,1⟩ ⟨2020,8,1⟩) +
        valorMulta477 dadosC8 +
        valorMulta467 dadosC8 (2501/250) (mesesTrabalhados ⟨2020,1,1⟩ ⟨2020,8,1⟩)) :=
  C8_total_geral_arredonda_soma_cheia dadosC8 ⟨2020,1,1⟩ ⟨2020,8,1⟩ (2501/250)
    rfl rfl rfl (by norm_num)

/-- C10: the Art. 467 penalty is 50% of the sum of the *rounded* trace values
of notice period, proportional vacation and thirteenth salary (zero when not
requested); at salary 1000 and seven months the rounded sum differs from the
full-precision sum of those items. -/
theorem C10_multa467_usa_valores_arredondados (dados : DadosTrabalhistas) (adm disp : Data)
    (s : ℚ) (hadm : dados.data_admissao = some adm) (hdisp : dados.data_dispensa = some disp)
    (hsal : dados.salario_base = some s) (hs : 0 < s)
    (h467 : dados.multa_467_requerida = true) :
    calcular_rescisao dados = .sucesso (rescisaoCore dados adm disp s) ∧
    (rescisaoCore dados adm disp s).multa_467_valor =
      round2 (((if dados.verbas_requeridas.contains "aviso_previo" then round2 s else 0) +
        (if dados.verbas_requeridas.contains "ferias_proporcionais" then
            round2 (valorFerias s (mesesTrabalhados adm disp)) else 0) +
        (if dados.verbas_requeridas.contains "decimo_terceiro" then
            round2 (valorDecimo s (mesesTrabalhados adm disp)) else 0)) * (50/100)) ∧
    round2 (valorFerias 1000 7) + round2 (valorDecimo 1000 7) ≠
      valorFerias 1000 7 + valorDecimo 1000 7 := by
  refine ⟨?_, ?_, by norm_num [valorFerias, valorDecimo, mesesAnoAtual, pymod12, round2, roundHalfEven]⟩
  · unfold calcular_rescisao
    simp only [hadm, hdisp, hsal]
    rw [if_neg (not_le.mpr hs)]
  · simp only [rescisaoCore, valorMulta467, baseMulta467, h467, if_true]

/-- C10 witness: salary 1000, seven months, vacation and thirteenth requested. -/
theorem C10_testemunha :
    calcular_rescisao dadosC10 = .sucesso (rescisaoCore dadosC10 ⟨2020,1,1⟩ ⟨2020,8,1⟩ 1000) ∧
    (rescisaoCore dadosC10 ⟨2020,1,1⟩ ⟨2020,8,1⟩ 1000).multa_467_valor =
      round2 (((if dadosC10.verbas_requeridas.contains "aviso_previo" then round2 1000 else 0) +
        (if dadosC10.verbas_requeridas.contains "ferias_proporcionais" then
            round2 (valorFerias 1000 (mesesTrabalhados ⟨2020,1,1⟩ ⟨2020,8,1⟩)) else 0) +
        (if dadosC10.verbas_requeridas.contains "decimo_terceiro" then
            round2 (valorDecimo 1000 (mesesTrabalhados ⟨2020,1,1⟩ ⟨2020,8,1⟩)) else 0)) * (50/100)) ∧
    round2 (valorFerias 1000 7) + round2 (valorDecimo 1000 7) ≠
      valorFerias 1000 7 + valorDecimo 1000 7 :=
  C10_multa467_usa_valores_arredondados dadosC10 ⟨2020,1,1⟩ ⟨2020,8,1⟩ 1000
    rfl rfl rfl (by norm_num) rfl

/-! Claim theorems: arrears calculator. -/

/-- C2 counterexample: the 14-month range 01/2023 - 02/2024 touches the two
civil years 2023 and 2024, yet exactly one thirteenth-salary installment is
emitted (2024's final covered month, February, is before November), not the
two the claim requires. -/
theorem C2_contraexemplo :
    calcular_atrasados taxasVazias 1000 ⟨2023,1,1⟩ ⟨2024,2,1⟩ "SELIC" false =
      .sucesso (atrasadosCore taxasVazias 1000 ⟨2023,1,1⟩ ⟨2024,2,1⟩ "SELIC" false) ∧
    anosDe ⟨2023,1,1⟩ ⟨2024,2,1⟩ = [2023, 2024] ∧
    (atrasadosCore taxasVazias 1000 ⟨2023,1,1⟩ ⟨2024,2,1⟩ "SELIC" false).total_meses = 14 ∧
    ((atrasadosCore taxasVazias 1000 ⟨2023,1,1⟩ ⟨2024,2,1⟩ "SELIC" false).memoria_mensal.filter
      (fun e => ehDecimo e.tipo)).length = 1 ∧
    (1 : Nat) ≠ 2 := by
  refine ⟨?_, by decide, by decide, by decide, by decide⟩
  exact atrasados_eq_sucesso taxasVazias 1000 ⟨2023,1,1⟩ ⟨2024,2,1⟩ "SELIC" false
    (by norm_num) (by decide) (by decide)

/-- C2 amended: one thirteenth-salary installment is emitted for each civil
year of the range whose final covered month is November or December — every
year strictly before the end year, plus the end year exactly when the end
month is November or December; years whose coverage ends January-October (the
end year of a range ending before November) emit none. -/
theorem C2_decimo_por_ano_com_novembro (taxas : Nat → Option ℚ) (rmi : ℚ) (ini fim : Data)
    (indice : String) (tem25 : Bool) (hrmi : 0 < rmi) (hdt : dataLt ini fim = true)
    (hidx : indicesReconhecidos.contains (maiusculas indice) = true) :
    calcular_atrasados taxas rmi ini fim indice tem25 =
      .sucesso (atrasadosCore taxas rmi ini fim (maiusculas indice) tem25) ∧
    ((atrasadosCore taxas rmi ini fim (maiusculas indice) tem25).memoria_mensal.filter
      (fun e => ehDecimo e.tipo)).length =
      (fim.ano - ini.ano) + (if 11 ≤ fim.mes then 1 else 0) :=
  ⟨atrasados_eq_sucesso taxas rmi ini fim indice tem25 hrmi hdt hidx,
   count_decimo_memoria taxas rmi ini fim (maiusculas indice) tem25 (dataLt_ano_le hdt)⟩

/-- C2 amended witness: the 14-month range emits 1 + 0 installments. -/
theorem C2_testemunha :
    calcular_atrasados taxasVazias 1000 ⟨2023,1,1⟩ ⟨2024,2,1⟩ "INPC" false =
      .sucesso (atrasadosCore taxasVazias 1000 ⟨2023,1,1⟩ ⟨2024,2,1⟩ (maiusculas "INPC") false) ∧
    ((atrasadosCore taxasVazias 1000 ⟨2023,1,1⟩ ⟨2024,2,1⟩ (maiusculas "INPC")
        false).memoria_mensal.filter (fun e => ehDecimo e.tipo)).length =
      ((2024:Nat) - 2023) + (if 11 ≤ (2:Nat) then 1 else 0) :=
  C2_decimo_por_ano_com_novembro taxasVazias 1000 ⟨2023,1,1⟩ ⟨2024,2,1⟩ "INPC" false
    (by norm_num) (by decide) (by decide)

/-- C3: every emitted installment's correction factor is (the 6-decimal
rounding of) the product of `(1 + rate/100)` over every calendar month from
its due month through the end month inclusive, with months absent from the
table contributing 1; an installment due in the final month still accrues
that month's own rate. -/
theorem C3_fator_acumulado_inclusivo (taxas : Nat → Option ℚ) (rmi : ℚ) (ini fim : Data)
    (indice : String) (tem25 : Bool) (hrmi : 0 < rmi) (hdt : dataLt ini fim = true)
    (hidx : indicesReconhecidos.contains (maiusculas indice) = true) :
    calcular_atrasados taxas rmi ini fim indice tem25 =
      .sucesso (atrasadosCore taxas rmi ini fim (maiusculas indice) tem25) ∧
    (∀ e ∈ (atrasadosCore taxas rmi ini fim (maiusculas indice) tem25).memoria_mensal,
      e.fator_correcao = round6 (fatorProduto taxas e.competencia (mesIdx fim)) ∧
      (e.competencia = mesIdx fim →
        e.fator_correcao = round6 (1 + taxaD taxas (mesIdx fim) / 100))) := by
  refine ⟨atrasados_eq_sucesso taxas rmi ini fim indice tem25 hrmi hdt hidx, ?_⟩
  intro e he
  simp only [atrasadosCore, List.mem_map] at he
  obtain ⟨p, hp, rfl⟩ := he
  refine ⟨?_, ?_⟩
  · simp only [fatorCorrecao_eq]
  · intro hc
    simp only at hc
    simp only [hc, fatorCorrecao_eq, fatorProduto_self]

/-- C3 witness: the three-month range with the 1%, 2%, 3% table. -/
theorem C3_testemunha :
    calcular_atrasados taxasC6 1000 ⟨2023,1,1⟩ ⟨2023,3,5⟩ "SELIC" false =
      .sucesso (atrasadosCore taxasC6 1000 ⟨2023,1,1⟩ ⟨2023,3,5⟩ (maiusculas "SELIC") false) ∧
    (∀ e ∈ (atrasadosCore taxasC6 1000 ⟨2023,1,1⟩ ⟨2023,3,5⟩ (maiusculas "SELIC")
        false).memoria_mensal,
      e.fator_correcao = round6 (fatorProduto taxasC6 e.competencia (mesIdx ⟨2023,3,5⟩)) ∧
      (e.competencia = mesIdx ⟨2023,3,5⟩ →
        e.fator_correcao = round6 (1 + taxaD taxasC6 (mesIdx ⟨2023,3,5⟩) / 100))) :=
  C3_fator_acumulado_inclusivo taxasC6 1000 ⟨2023,1,1⟩ ⟨2023,3,5⟩ "SELIC" false
    (by norm_num) (by decide) (by decide)

set_option maxRecDepth 4000 in
/-- C6 counterexample: requesting INPC over 01-03/2023 succeeds on the SELIC
monthly table (identical trace and totals to a SELIC request), yet the result
reports `indice_aplicado = "INPC"` and its observations are exactly the three
standard notes — the index-in-use note naming INPC as applied, the
reversed-compounding note and the SELIC series-code note — with no
substitution notice (the source only emits a Python warning). -/
theorem C6_contraexemplo :
    calcular_atrasados taxasC6 1000 ⟨2023,1,1⟩ ⟨2023,3,5⟩ "INPC" false =
      .sucesso (atrasadosCore taxasC6 1000 ⟨2023,1,1⟩ ⟨2023,3,5⟩ "INPC" false) ∧
    (atrasadosCore taxasC6 1000 ⟨2023,1,1⟩ ⟨2023,3,5⟩ "INPC" false).indice_aplicado =
      "INPC" ∧
    (atrasadosCore taxasC6 1000 ⟨2023,1,1⟩ ⟨2023,3,5⟩ "INPC" false).observacoes =
      [obsIndice "INPC", obsJuros, obsCodigo] ∧
    (atrasadosCore taxasC6 1000 ⟨2023,1,1⟩ ⟨2023,3,5⟩ "INPC" false).memoria_mensal =
      (atrasadosCore taxasC6 1000 ⟨2023,1,1⟩ ⟨2023,3,5⟩ "SELIC" false).memoria_mensal ∧
    (atrasadosCore taxasC6 1000 ⟨2023,1,1⟩ ⟨2023,3,5⟩ "INPC" false).total_corrigido =
      (atrasadosCore taxasC6 1000 ⟨2023,1,1⟩ ⟨2023,3,5⟩ "SELIC" false).total_corrigido := by
  refine ⟨?_, rfl, by decide, rfl, rfl⟩
  have h := atrasados_eq_sucesso taxasC6 1000 ⟨2023,1,1⟩ ⟨2023,3,5⟩ "INPC" false
    (by norm_num) (by decide) (by decide)
  rw [show maiusculas "INPC" = "INPC" from by decide] at h
  exact h

/-- C6 amended: a recognised non-policy-rate index (INPC or IPCA-E) succeeds
and is computed on the same monthly table as a SELIC request, with identical
installments and totals; the result's `indice_aplicado` and index-in-use
observation carry the requested index name, and the observations list has the
same shape as a SELIC request's — the substitution is not recorded there (the
source only issues a Python warning). -/
theorem C6_substituicao_sem_observacao (taxas : Nat → Option ℚ) (rmi : ℚ) (ini fim : Data)
    (indice : String) (tem25 : Bool) (hrmi : 0 < rmi) (hdt : dataLt ini fim = true)
    (hname : maiusculas indice = "INPC" ∨ maiusculas indice = "IPCA-E") :
    calcular_atrasados taxas rmi ini fim indice tem25 =
      .sucesso (atrasadosCore taxas rmi ini fim (maiusculas indice) tem25) ∧
    (atrasadosCore taxas rmi ini fim (maiusculas indice) tem25).memoria_mensal =
      (atrasadosCore taxas rmi ini fim "SELIC" tem25).memoria_mensal ∧
    (atrasadosCore taxas rmi ini fim (maiusculas indice) tem25).total_corrigido =
      (atrasadosCore taxas rmi ini fim "SELIC" tem25).total_corrigido ∧
    (atrasadosCore taxas rmi ini fim (maiusculas indice) tem25).total_devido_sem_correcao =
      (atrasadosCore taxas rmi ini fim "SELIC" tem25).total_devido_sem_correcao ∧
    (atrasadosCore taxas rmi ini fim (maiusculas indice) tem25).indice_aplicado =
      maiusculas indice ∧
    (atrasadosCore taxas rmi ini fim (maiusculas indice) tem25).observacoes =
      obsLista rmi (if tem25 then rmi * (125/100) else rmi) tem25 (maiusculas indice)
        (((atrasadosCore taxas rmi ini fim "SELIC" tem25).memoria_mensal.filter
          (fun e => ehDecimo e.tipo)).length) := by
  have hidx : indicesReconhecidos.contains (maiusculas indice) = true := by
    rcases hname with h | h <;> rw [h] <;> decide
  exact ⟨atrasados_eq_sucesso taxas rmi ini fim indice tem25 hrmi hdt hidx,
    rfl, rfl, rfl, rfl, rfl⟩

/-- C6 amended witness: the concrete INPC request over 01-03/2023. -/
theorem C6_testemunha :
    calcular_atrasados taxasC6 1000 ⟨2023,1,1⟩ ⟨2023,3,5⟩ "INPC" false =
      .sucesso (atrasadosCore taxasC6 1000 ⟨2023,1,1⟩ ⟨2023,3,5⟩ (maiusculas "INPC") false) ∧
    (atrasadosCore taxasC6 1000 ⟨2023,1,1⟩ ⟨2023,3,5⟩ (maiusculas "INPC") false).memoria_mensal =
      (atrasadosCore taxasC6 1000 ⟨2023,1,1⟩ ⟨2023,3,5⟩ "SELIC" false).memoria_mensal ∧
    (atrasadosCore taxasC6 1000 ⟨2023,1,1⟩ ⟨2023,3,5⟩ (maiusculas "INPC") false).total_corrigido =
      (atrasadosCore taxasC6 1000 ⟨2023,1,1⟩ ⟨2023,3,5⟩ "SELIC" false).total_corrigido ∧
    (atrasadosCore taxasC6 1000 ⟨2023,1,1⟩ ⟨2023,3,5⟩ (maiusculas "INPC")
        false).total_devido_sem_correcao =
      (atrasadosCore taxasC6 1000 ⟨2023,1,1⟩ ⟨2023,3,5⟩ "SELIC" false).total_devido_sem_correcao ∧
    (atrasadosCore taxasC6 1000 ⟨2023,1,1⟩ ⟨2023,3,5⟩ (maiusculas "INPC") false).indice_aplicado =
      maiusculas "INPC" ∧
    (atrasadosCore taxasC6 1000 ⟨2023,1,1⟩ ⟨2023,3,5⟩ (maiusculas "INPC") false).observacoes =
      obsLista 1000 (if false then 1000 * (125/100) else 1000) false (maiusculas "INPC")
        (((atrasadosCore taxasC6 1000 ⟨2023,1,1⟩ ⟨2023,3,5⟩ "SELIC" false).memoria_mensal.filter
          (fun e => ehDecimo e.tipo)).length) :=
  C6_substituicao_sem_observacao taxasC6 1000 ⟨2023,1,1⟩ ⟨2023,3,5⟩ "INPC" false
    (by norm_num) (by decide) (Or.inl (by decide))

/-- C1: in dynamic-base mode the benefit amount is not validated and is
ignored for the per-month base — the calculation succeeds for any benefit
amount (including non-positive ones), every ordinary installment is worth the
minimum wage effective in its own month (times 1.25 under the uplift), and the
emitted trace is independent of the benefit amount. -/
theorem C1_base_dinamica_salario_minimo (taxas : Nat → Option ℚ) (rmi : ℚ) (ini fim : Data)
    (indice : String) (tem25 : Bool) (hdt : dataLt ini fim = true)
    (hidx : indicesReconhecidos.contains (maiusculas indice) = true)
    (hano : 2022 ≤ ini.ano) :
    calcular_atrasados_dinamico taxas rmi ini fim indice tem25 true =
      .sucesso (atrasadosCoreDin taxas rmi ini fim (maiusculas indice) tem25 true) ∧
    (∀ e ∈ (atrasadosCoreDin taxas rmi ini fim (maiusculas indice) tem25 true).memoria_mensal,
      e.tipo = .rmiMensal →
      ∃ w, smIdx e.competencia = some w ∧
        e.valor_original = round2 (w * (if tem25 then (125/100 : ℚ) else 1))) ∧
    (∀ rmiOutra : ℚ,
      (atrasadosCoreDin taxas rmiOutra ini fim (maiusculas indice) tem25 true).memoria_mensal =
        (atrasadosCoreDin taxas rmi ini fim (maiusculas indice) tem25 true).memoria_mensal) := by
  refine ⟨?_, ?_, ?_⟩
  · unfold calcular_atrasados_dinamico
    rw [if_neg (by simp), if_pos hdt, if_pos hidx,
        if_neg (by rintro ⟨-, h⟩; omega)]
  · intro e he htipo
    simp only [atrasadosCoreDin, List.mem_map, List.mem_append] at he
    obtain ⟨p, hp, rfl⟩ := he
    simp only at htipo
    rcases hp with h | h
    · obtain ⟨v, hv, rfl⟩ := h
      have hvge : 2022 * 12 ≤ v := by
        have h1 := (mem_mesesDe.mp hv).1
        unfold mesIdx mIdx at h1
        omega
      obtain ⟨w, hw⟩ := Option.isSome_iff_exists.mp (smIdx_isSome hvge)
      refine ⟨w, hw, ?_⟩
      simp only [if_true, hw, Option.getD_some]
    · exfalso
      obtain ⟨a, _, hfa⟩ := List.mem_filterMap.mp h
      by_cases hc : 11 ≤ (if a < fim.ano then 12 else fim.mes)
      · rw [if_pos hc] at hfa
        cases hfa
        exact absurd htipo (by simp)
      · rw [if_neg hc] at hfa
        exact absurd hfa (by simp)
  · intro rmiOutra
    simp only [atrasadosCoreDin, if_true]

/-- C1 witness: a negative benefit amount over 01-03/2023 with the uplift. -/
theorem C1_testemunha :
    calcular_atrasados_dinamico taxasVazias (-5) ⟨2023,1,1⟩ ⟨2023,3,10⟩ "SELIC" true true =
      .sucesso (atrasadosCoreDin taxasVazias (-5) ⟨2023,1,1⟩ ⟨2023,3,10⟩ (maiusculas "SELIC")
        true true) ∧
    (∀ e ∈ (atrasadosCoreDin taxasVazias (-5) ⟨2023,1,1⟩ ⟨2023,3,10⟩ (maiusculas "SELIC")
        true true).memoria_mensal,
      e.tipo = .rmiMensal →
      ∃ w, smIdx e.competencia = some w ∧
        e.valor_original = round2 (w * (if true then (125/100 : ℚ) else 1))) ∧
    (∀ rmiOutra : ℚ,
      (atrasadosCoreDin taxasVazias rmiOutra ⟨2023,1,1⟩ ⟨2023,3,10⟩ (maiusculas "SELIC")
          true true).memoria_mensal =
        (atrasadosCoreDin taxasVazias (-5) ⟨2023,1,1⟩ ⟨2023,3,10⟩ (maiusculas "SELIC")
          true true).memoria_mensal) :=
  C1_base_dinamica_salario_minimo taxasVazias (-5) ⟨2023,1,1⟩ ⟨2023,3,10⟩ "SELIC" true
    (by decide) (by decide) (by norm_num)

/-! Claim theorem: dynamic-minimum-wage detector. -/

/-- C9: the detector returns true when the RMI is absent or non-positive, and
when the RMI is within 5.00 of the minimum wage effective at the benefit-start
date (or of 1.25 times it, under the 25% flag); a minimum-wage lookup failure
is swallowed, the detector then returning exactly the remarks-keyword result. -/
theorem C9_detector_salario_minimo (dados : DadosPrev) :
    (dados.rmi = none → detectar_salario_minimo_dinamico dados = true) ∧
    (∀ r, dados.rmi = some r → r ≤ 0 → detectar_salario_minimo_dinamico dados = true) ∧
    (∀ r d sm, dados.rmi = some r → dados.dib = some d →
      obter_salario_minimo d = some sm → |r - sm| ≤ 5 →
      detectar_salario_minimo_dinamico dados = true) ∧
    (∀ r d sm, dados.rmi = some r → dados.dib = some d →
      obter_salario_minimo d = some sm → dados.tem_adicional_25 = true →
      |r - sm * (125/100)| ≤ 5 → detectar_salario_minimo_dinamico dados = true) ∧
    (∀ r d, dados.rmi = some r → 0 < r → dados.dib = some d →
      obter_salario_minimo d = none →
      detectar_salario_minimo_dinamico dados = verificaPalavrasChave dados.observacoes) := by
  unfold detectar_salario_minimo_dinamico
  refine ⟨?_, ?_, ?_, ?_, ?_⟩
  · intro h
    simp only [h]
  · intro r h hr
    simp only [h, if_pos hr]
  · intro r d sm hrmi hdib hsm htol
    simp only [hrmi, hdib, hsm]
    by_cases hr : r ≤ 0
    · rw [if_pos hr]
    · rw [if_neg hr, if_pos htol]
  · intro r d sm hrmi hdib hsm h25 htol
    simp only [hrmi, hdib, hsm]
    by_cases hr : r ≤ 0
    · rw [if_pos hr]
    · rw [if_neg hr]
      by_cases h1 : |r - sm| ≤ 5
      · rw [if_pos h1]
      · rw [if_neg h1, if_pos ⟨h25, htol⟩]
  · intro r d hrmi hr hdib hsm
    simp only [hrmi, hdib, hsm, if_neg (not_le.mpr hr)]

/-- C9 witness: RMI 1300 against the 02/2023 minimum wage of 1302. -/
theorem C9_testemunha : detectar_salario_minimo_dinamico dadosC9 = true :=
  (C9_detector_salario_minimo dadosC9).2.2.1 1300 ⟨2023,2,1⟩ 1302 rfl rfl (by decide)
    (by norm_num)

end JurisFlow
